import Mathlib

/-!
Verification of the QA alert script (src/qa/alert.py).

The script fetches a daily summary row-set from a warehouse, runs three
validation checks on it (`df_check`), and maps the outcome to a process
exit code (`main`).  We embed the data model (a pandas-style data frame),
the validator, and the exit-code logic, and prove the specification's
claims about them.

Modelling conventions:
* A data frame is a list of named columns, each holding a list of cells.
  `df.shape[1]` is the number of columns; `df.empty` is true when either
  axis has length zero.
* Cells are dates (values supporting `strftime`), numbers (modelled as
  exact rationals `ℚ`; the float literals `1.00001` and `0.99999` become
  the corresponding rationals), or other values.
* Python exceptions are modelled with `Except PyError`: `df['X']` on a
  missing column throws `KeyError`, `strftime` on a non-date throws
  `AttributeError`, indexing an empty array throws `IndexError`.
* Issue strings are abstracted to their structured content (`Issue`):
  which check failed and the expected/actual values embedded in the
  message.
-/

/-- A calendar date as handled by `datetime`: year, month, day. -/
structure PDate where
  year : Nat
  month : Nat
  day : Nat
deriving DecidableEq

/-- Gregorian leap-year rule, as used by `datetime`. -/
def isLeap (y : Nat) : Bool :=
  (y % 4 == 0 && y % 100 != 0) || y % 400 == 0

/-- Number of days in month `m` of year `y`. -/
def daysInMonth (y m : Nat) : Nat :=
  if m == 2 then (if isLeap y then 29 else 28)
  else if m == 4 || m == 6 || m == 9 || m == 11 then 30
  else 31

/-- The previous calendar day, as computed by `d - timedelta(days=1)`. -/
def predDate (d : PDate) : PDate :=
  if d.day > 1 then ⟨d.year, d.month, d.day - 1⟩
  else if d.month > 1 then ⟨d.year, d.month - 1, daysInMonth d.year (d.month - 1)⟩
  else ⟨d.year - 1, 12, 31⟩

/-- Zero-pad the decimal rendering of `n` to at least `w` characters. -/
def padNum (w n : Nat) : String :=
  let s := toString n
  if s.length < w then String.mk (List.replicate (w - s.length) '0') ++ s else s

/-- The rendering produced by `strftime('%Y-%m-%d')`. -/
def fmtDate (d : PDate) : String :=
  padNum 4 d.year ++ "-" ++ padNum 2 d.month ++ "-" ++ padNum 2 d.day

/-- A cell of the row-set: a date-like value (supports `strftime`),
a numeric value, or anything else. -/
inductive Cell where
  | date (d : PDate)
  | num (q : ℚ)
  | other (tag : Nat)
deriving DecidableEq

/-- A named column of the row-set. -/
structure Column where
  name : String
  cells : List Cell
deriving DecidableEq

/-- The in-memory row-set returned by `cur.fetch_pandas_all()`. -/
structure DataFrame where
  cols : List Column
deriving DecidableEq

/-- Name of the date column accessed by the validator. -/
def dateColName : String := "DATE"

/-- Name of the ratio column accessed by the validator. -/
def ratioColName : String := "ROW_EVENT_RATIO"

/-- Column access `df[n]`: the first column with the given label, if any. -/
def DataFrame.col (df : DataFrame) (n : String) : Option Column :=
  df.cols.find? (fun c => c.name == n)

/-- The number of columns, `df.shape[1]`. -/
def DataFrame.ncols (df : DataFrame) : Nat := df.cols.length

/-- The number of rows, `df.shape[0]` (length of the first column;
a frame with no columns has no rows). -/
def DataFrame.nrows (df : DataFrame) : Nat :=
  match df.cols with
  | [] => 0
  | c :: _ => c.cells.length

/-- The emptiness test `df.empty`: true when either axis has length zero. -/
def DataFrame.isEmptyDF (df : DataFrame) : Bool :=
  df.nrows == 0 || df.ncols == 0

/-- The Python exceptions the script can raise while validating. -/
inductive PyError where
  | keyError (k : String)
  | attributeError
  | indexError
  | typeError
deriving DecidableEq

/-- The structured content of the issue strings built by `df_check`. -/
inductive Issue where
  | dateCheck (expected actual : String)
  | columnCount (expected got : Nat)
  | ratioRange (minv maxv : ℚ)
deriving DecidableEq

/-- Fuel-driven core of `Series.unique`: keep the first occurrence of
each value, in order of appearance. -/
def uniqueCellsAux : Nat → List Cell → List Cell
  | _, [] => []
  | 0, _ :: _ => []
  | n + 1, c :: rest => c :: uniqueCellsAux n (rest.filter (fun x => x ≠ c))

/-- Pandas `Series.unique()`: distinct values in order of first appearance. -/
def uniqueCells (l : List Cell) : List Cell :=
  uniqueCellsAux l.length l

/-- Numeric contents of a column; a non-numeric cell raises `TypeError`
(the fetched ratio column is numeric throughout). -/
def extractNums : List Cell → Except PyError (List ℚ)
  | [] => .ok []
  | .num q :: rest =>
      match extractNums rest with
      | .ok qs => .ok (q :: qs)
      | .error e => .error e
  | .date _ :: _ => .error .typeError
  | .other _ :: _ => .error .typeError

/-- Pandas `Series.max()` for a numeric column: `none` on an empty column
(pandas yields NaN there, and NaN comparisons are false). -/
def listMax? : List ℚ → Option ℚ
  | [] => none
  | x :: xs => some (xs.foldl max x)

/-- Pandas `Series.min()` for a numeric column. -/
def listMin? : List ℚ → Option ℚ
  | [] => none
  | x :: xs => some (xs.foldl min x)

/-- Upper tolerance bound of the ratio check (the literal `1.00001`). -/
def ratioUpper : ℚ := mkRat 100001 100000

/-- Lower tolerance bound of the ratio check (the literal `0.99999`). -/
def ratioLower : ℚ := mkRat 99999 100000

instance {ε α : Type} [DecidableEq ε] [DecidableEq α] : DecidableEq (Except ε α) := fun
  | .error a, .error b =>
      if h : a = b then .isTrue (by rw [h])
      else .isFalse (fun hc => h (by cases hc; rfl))
  | .error _, .ok _ => .isFalse (fun hc => Except.noConfusion hc)
  | .ok _, .error _ => .isFalse (fun hc => Except.noConfusion hc)
  | .ok a, .ok b =>
      if h : a = b then .isTrue (by rw [h])
      else .isFalse (fun hc => h (by cases hc; rfl))

/-- Yesterday's date string,
computed as `(datetime.now() - timedelta(days=1)).strftime('%Y-%m-%d')`
with `now` the run's local-clock date. -/
def yesterdayStr (now : PDate) : String := fmtDate (predDate now)

/-- Check 1 of `df_check` (alert.py lines 81-87): format the first
distinct value of `df['DATE']` and compare it with yesterday.  Raises
`KeyError` when the column is missing, `IndexError` when it is empty,
and `AttributeError` when its first value has no `strftime`. -/
def dateCheckPart (now : PDate) (df : DataFrame) : Except PyError (Bool × List Issue) :=
  match df.col dateColName with
  | none => .error (.keyError dateColName)
  | some dc =>
    match (uniqueCells dc.cells).head? with
    | none => .error .indexError
    | some (.date d) =>
        let uniqueValues := fmtDate d
        if uniqueValues ≠ yesterdayStr now then
          .ok (true, [.dateCheck (yesterdayStr now) uniqueValues])
        else
          .ok (false, [])
    | some _ => .error .attributeError

/-- Check 2 of `df_check` (alert.py lines 89-92): `df.shape[1] != 16`. -/
def colCountPart (df : DataFrame) : Bool × List Issue :=
  if df.ncols ≠ 16 then (true, [.columnCount 16 df.ncols]) else (false, [])

/-- Check 3 of `df_check` (alert.py lines 94-100): fail when
`df['ROW_EVENT_RATIO'].max() > 1.00001 or df['ROW_EVENT_RATIO'].min() < 0.99999`.
Raises `KeyError` when the column is missing. -/
def ratioPart (df : DataFrame) : Except PyError (Bool × List Issue) :=
  match df.col ratioColName with
  | none => .error (.keyError ratioColName)
  | some rc =>
    match extractNums rc.cells with
    | .error e => .error e
    | .ok nums =>
      match listMax? nums, listMin? nums with
      | some maxValue, some minValue =>
          if maxValue > ratioUpper ∨ minValue < ratioLower then
            .ok (true, [.ratioRange minValue maxValue])
          else
            .ok (false, [])
      | _, _ => .ok (false, [])

/-- The validator `df_check(df)` (alert.py lines 68-110): run the three checks in
order, collecting the flag and the issue list.  An exception raised at
any point aborts the remaining code and propagates to the caller, as in
Python; otherwise all three checks contribute their flag and issues. -/
def df_check (now : PDate) (df : DataFrame) : Except PyError (Bool × List Issue) :=
  match dateCheckPart now df with
  | .error e => .error e
  | .ok (f1, i1) =>
    let (f2, i2) := colCountPart df
    match ratioPart df with
    | .error e => .error e
    | .ok (f3, i3) => .ok (f1 || f2 || f3, i1 ++ i2 ++ i3)

/-- Outcome of `get_snowflake_data()`: either some exception occurred
(connection, authentication, or any of the executed statements), upon
which the function prints the error and calls `sys.exit(1)`, or the
fetched data frame is returned. -/
inductive FetchResult where
  | err
  | ok (df : DataFrame)
deriving DecidableEq

/-- What one run reports on standard output before terminating. -/
inductive RunReport where
  | fetchError
  | noData
  | alertFailed
  | success
  | unexpected
deriving DecidableEq

/-- Observable outcome of one run: process exit code, what was
reported, and whether `df_check` was invoked at all. -/
structure RunOutcome where
  exitCode : Nat
  report : RunReport
  validatorRan : Bool
deriving DecidableEq

/-- The entry point `main()` plus the module-level `sys.exit` (alert.py lines 112-149).
A fetch error exits 1 via `sys.exit(1)` inside `get_snowflake_data`
(`SystemExit` is not an `Exception`, so `main`'s handler does not catch
it).  An empty frame prints "No data retrieved" and returns 1 without
calling `df_check`.  An exception inside `df_check` is caught by the
top-level handler ("Unexpected error") and returns 1.  Otherwise the
exit code is 1 when the flag is set and 0 when all checks passed. -/
def runMain (now : PDate) (fetch : FetchResult) : RunOutcome :=
  match fetch with
  | .err => ⟨1, .fetchError, false⟩
  | .ok df =>
    if df.isEmptyDF then ⟨1, .noData, false⟩
    else
      match df_check now df with
      | .error _ => ⟨1, .unexpected, true⟩
      | .ok (flag, _) =>
        if flag then ⟨1, .alertFailed, true⟩ else ⟨0, .success, true⟩

/-- Events of the resource lifecycle inside `get_snowflake_data`
(alert.py lines 41-66). -/
inductive SfEvent where
  | openConnection
  | openCursor
  | closeCursor
  | closeConnection
  | printError
  | exitOne
  | returnData
deriving DecidableEq

/-- Where inside the `try` block of `get_snowflake_data` an exception
is raised, if anywhere. -/
inductive SfStep where
  | sConnect
  | sUseRole
  | sUseWarehouse
  | sQuery
  | sFetch
deriving DecidableEq

/-- Reference run date used by the concrete test frames below. -/
def refNow : PDate := ⟨2026, 10, 12⟩

/-- Fourteen filler columns (numeric, one row) completing a 16-column
frame. -/
def fillerCols : List Column :=
  (List.range 14).map (fun i => ⟨toString i, [Cell.num 0]⟩)

/-- A one-row date column holding yesterday relative to `refNow`. -/
def goodDateColW : Column := ⟨dateColName, [Cell.date ⟨2026, 10, 11⟩]⟩

/-- A one-row ratio column holding exactly 1. -/
def goodRatioColW : Column := ⟨ratioColName, [Cell.num 1]⟩

/-- A frame that passes all three checks on `refNow`: 16 columns,
yesterday's date, ratio exactly 1. -/
def dfGoodW : DataFrame :=
  ⟨goodDateColW :: goodRatioColW :: fillerCols⟩

/-- A 16-column frame with zero rows. -/
def dfZeroRowsW : DataFrame :=
  ⟨⟨dateColName, []⟩ :: ⟨ratioColName, []⟩ ::
   (List.range 14).map (fun i => ⟨toString i, []⟩)⟩

/-- A one-row ratio column holding `1.00002`, outside the tolerance
band. -/
def badRatioColW : Column := ⟨ratioColName, [Cell.num (mkRat 100002 100000)]⟩

/-- A frame like `dfGoodW` but with ratio `1.00002`, outside the
tolerance band. -/
def dfBadRatioW : DataFrame :=
  ⟨goodDateColW :: badRatioColW :: fillerCols⟩

/-- A frame like `dfGoodW` but with only 15 columns. -/
def dfFifteenW : DataFrame :=
  ⟨⟨dateColName, [Cell.date ⟨2026, 10, 11⟩]⟩ ::
   ⟨ratioColName, [Cell.num 1]⟩ ::
   (List.range 13).map (fun i => ⟨toString i, [Cell.num 0]⟩)⟩

/-- A frame like `dfGoodW` but with a wrong date and 15 columns:
fails two checks at once. -/
def dfTwoFailW : DataFrame :=
  ⟨⟨dateColName, [Cell.date ⟨2026, 10, 9⟩]⟩ ::
   ⟨ratioColName, [Cell.num 1]⟩ ::
   (List.range 13).map (fun i => ⟨toString i, [Cell.num 0]⟩)⟩

/-- A date column whose first value matches `goodDateColW` but whose
second row carries a different date. -/
def secondDateColW : Column :=
  ⟨dateColName, [Cell.date ⟨2026, 10, 11⟩, Cell.date ⟨2024, 1, 1⟩]⟩

/-- A frame like `dfGoodW` whose `DATE` column carries a second,
different date after the first row. -/
def dfSecondDateW : DataFrame :=
  ⟨secondDateColW :: ⟨ratioColName, [Cell.num 1, Cell.num 1]⟩ :: fillerCols⟩

/-- A non-empty 16-column frame with no `DATE` column at all. -/
def dfNoDateW : DataFrame :=
  ⟨⟨ratioColName, [Cell.num 1]⟩ ::
   (List.range 15).map (fun i => ⟨toString i, [Cell.num 0]⟩)⟩

/-- Resource-event trace of `get_snowflake_data` (alert.py lines
41-66): the `try` block opens the connection and cursor, runs the three
statements and the fetch, then closes cursor and connection; the
`except` clause prints the error and calls `sys.exit(1)` without
closing anything. -/
def get_snowflake_data_trace (fail : Option SfStep) : List SfEvent :=
  match fail with
  | some .sConnect => [.printError, .exitOne]
  | some .sUseRole => [.openConnection, .openCursor, .printError, .exitOne]
  | some .sUseWarehouse => [.openConnection, .openCursor, .printError, .exitOne]
  | some .sQuery => [.openConnection, .openCursor, .printError, .exitOne]
  | some .sFetch => [.openConnection, .openCursor, .printError, .exitOne]
  | none =>
      [.openConnection, .openCursor, .closeCursor, .closeConnection, .returnData]

/-! ## Basic lemmas about the embedded operations -/

/-- The first element of `Series.unique()` is the column's first value. -/
theorem head?_uniqueCells (l : List Cell) : (uniqueCells l).head? = l.head? := by
  cases l <;> rfl

/-- Composition law of `df_check`: when neither exception-raising access
fails, the verdict combines the three checks' flags and issue lists. -/
theorem df_check_decomp (now : PDate) (df : DataFrame) (f1 f3 : Bool)
    (i1 i3 : List Issue)
    (h1 : dateCheckPart now df = .ok (f1, i1))
    (h3 : ratioPart df = .ok (f3, i3)) :
    df_check now df
      = .ok (f1 || (colCountPart df).1 || f3, i1 ++ (colCountPart df).2 ++ i3) := by
  rcases hcc : colCountPart df with ⟨f2, i2⟩
  simp only [df_check, h1, h3, hcc]

/-- Inversion of `df_check`: any returned verdict decomposes into the
three checks' contributions. -/
theorem df_check_ok_inv (now : PDate) (df : DataFrame) (flag : Bool)
    (issues : List Issue) (h : df_check now df = .ok (flag, issues)) :
    ∃ f1 i1 f3 i3,
      dateCheckPart now df = .ok (f1, i1) ∧ ratioPart df = .ok (f3, i3)
      ∧ flag = (f1 || (colCountPart df).1 || f3)
      ∧ issues = i1 ++ (colCountPart df).2 ++ i3 := by
  unfold df_check at h
  rcases hd : dateCheckPart now df with e | ⟨f1, i1⟩ <;> rw [hd] at h
  · exact absurd h (by simp)
  · rcases hcc : colCountPart df with ⟨f2, i2⟩
    rw [hcc] at h
    rcases hr : ratioPart df with e | ⟨f3, i3⟩ <;> rw [hr] at h
    · exact absurd h (by simp)
    · refine ⟨f1, i1, f3, i3, rfl, rfl, ?_, ?_⟩ <;>
        simp_all [Prod.ext_iff]

/-- Shape of check 1's contribution: one issue when it fails, none when
it passes, and never a column-count issue. -/
theorem dateCheckPart_issues (now : PDate) (df : DataFrame) (f : Bool)
    (i : List Issue) (h : dateCheckPart now df = .ok (f, i)) :
    i.length = (if f then 1 else 0) ∧ ∀ a b, Issue.columnCount a b ∉ i := by
  unfold dateCheckPart at h
  repeat' split at h
  all_goals try (simp only [ne_eq] at h; split at h)
  all_goals
    first
      | exact Except.noConfusion h
      | (simp only [Except.ok.injEq, Prod.mk.injEq] at h
         obtain ⟨hf, hi⟩ := h
         subst hf
         subst hi
         simp)

/-- Shape of check 3's contribution: one issue when it fails, none when
it passes, and never a column-count issue. -/
theorem ratioPart_issues (df : DataFrame) (f : Bool) (i : List Issue)
    (h : ratioPart df = .ok (f, i)) :
    i.length = (if f then 1 else 0) ∧ ∀ a b, Issue.columnCount a b ∉ i := by
  unfold ratioPart at h
  repeat' split at h
  all_goals
    first
      | exact Except.noConfusion h
      | (simp only [Except.ok.injEq, Prod.mk.injEq] at h
         obtain ⟨hf, hi⟩ := h
         subst hf
         subst hi
         simp)

/-- Shape of check 2's contribution: one issue when it fails, none when
it passes. -/
theorem colCountPart_issues (df : DataFrame) :
    (colCountPart df).2.length = (if (colCountPart df).1 then 1 else 0) := by
  unfold colCountPart
  split <;> simp

/-! ## Claim C4: empty result short-circuits before validation -/

/-- C4: if the fetch succeeds but the row-set has zero rows, the run
reports "no data retrieved", exits with status 1, and the validator
(and hence every one of the three checks) is never invoked. -/
theorem empty_result_reports_no_data (now : PDate) (df : DataFrame)
    (h : df.nrows = 0) :
    runMain now (.ok df) = ⟨1, RunReport.noData, false⟩ := by
  have he : df.isEmptyDF = true := by
    simp [DataFrame.isEmptyDF, h]
  simp [runMain, he]

/-- Witness for C4 at a 16-column frame with zero rows. -/
theorem empty_result_reports_no_data_witness :
    dfZeroRowsW.nrows = 0
    ∧ runMain refNow (.ok dfZeroRowsW) = ⟨1, RunReport.noData, false⟩ :=
  ⟨by decide, empty_result_reports_no_data refNow dfZeroRowsW (by decide)⟩

/-! ## Claim C8 (corrected): resource release on exit paths -/

/-- C8 counterexample: on the query-execution error path the connection
and cursor have been opened but neither close event occurs before the
process exits; the claim that every exit path releases them is false. -/
theorem connection_leak_on_query_error :
    SfEvent.openConnection ∈ get_snowflake_data_trace (some SfStep.sQuery)
    ∧ SfEvent.openCursor ∈ get_snowflake_data_trace (some SfStep.sQuery)
    ∧ SfEvent.closeCursor ∉ get_snowflake_data_trace (some SfStep.sQuery)
    ∧ SfEvent.closeConnection ∉ get_snowflake_data_trace (some SfStep.sQuery) := by
  decide

/-- C8 amended: the cursor and connection are closed exactly on the
successful path; every error path exits without closing either. -/
theorem resources_closed_iff_no_failure (fail : Option SfStep) :
    (SfEvent.closeCursor ∈ get_snowflake_data_trace fail
     ∧ SfEvent.closeConnection ∈ get_snowflake_data_trace fail)
    ↔ fail = none := by
  cases fail with
  | none => decide
  | some s => cases s <;> decide

/-! ## Claim C9: determinism -/

/-- C9: two runs observing the same computed "yesterday" string and the
same fetch outcome produce the same validator verdict (flag and issue
list) and the same run outcome (exit code included). -/
theorem same_inputs_same_outcome (now1 now2 : PDate) (f1 f2 : FetchResult)
    (hy : yesterdayStr now1 = yesterdayStr now2) (hf : f1 = f2) :
    (∀ df : DataFrame, df_check now1 df = df_check now2 df)
    ∧ runMain now1 f1 = runMain now2 f2 := by
  have hdc : ∀ df : DataFrame, dateCheckPart now1 df = dateCheckPart now2 df := by
    intro df
    unfold dateCheckPart
    rw [hy]
  have hchk : ∀ df : DataFrame, df_check now1 df = df_check now2 df := by
    intro df
    unfold df_check
    rw [hdc df]
  refine ⟨hchk, ?_⟩
  subst hf
  cases f1 with
  | err => rfl
  | ok df =>
    simp only [runMain]
    rw [hchk df]

/-- Witness for C9 at the reference date and a passing frame. -/
theorem same_inputs_same_outcome_witness :
    yesterdayStr refNow = yesterdayStr refNow
    ∧ ((∀ df : DataFrame, df_check refNow df = df_check refNow df)
       ∧ runMain refNow (.ok dfGoodW) = runMain refNow (.ok dfGoodW)) :=
  ⟨rfl, same_inputs_same_outcome refNow refNow (.ok dfGoodW) (.ok dfGoodW) rfl rfl⟩

/-! ## Claim C1: exit code contract -/

/-- C1: the process exit code is always 0 or 1, and it is 0 exactly
when the fetch succeeded, the frame is non-empty, and the validator
returned with no check failed; every fetch error, empty result,
validation failure, or validator exception yields exit code 1. -/
theorem exit_code_zero_iff (now : PDate) (fetch : FetchResult) :
    ((runMain now fetch).exitCode = 0 ∨ (runMain now fetch).exitCode = 1)
    ∧ ((runMain now fetch).exitCode = 0 ↔
        ∃ df issues, fetch = .ok df ∧ df.isEmptyDF = false
          ∧ df_check now df = .ok (false, issues)) := by
  cases fetch with
  | err =>
    refine ⟨Or.inr rfl, ?_, ?_⟩
    · intro h
      exact absurd h (by simp [runMain])
    · rintro ⟨df, issues, hdf, -⟩
      exact FetchResult.noConfusion hdf
  | ok df =>
    by_cases he : df.isEmptyDF = true
    · have hr : runMain now (.ok df) = ⟨1, .noData, false⟩ := by
        simp [runMain, he]
      rw [hr]
      refine ⟨Or.inr rfl, ?_, ?_⟩
      · intro h
        exact absurd h (by simp)
      · rintro ⟨df', issues, hdf, hne, -⟩
        cases hdf
        rw [he] at hne
        exact Bool.noConfusion hne
    · have he' : df.isEmptyDF = false := by simpa using he
      cases hc : df_check now df with
      | error e =>
        have hr : runMain now (.ok df) = ⟨1, .unexpected, true⟩ := by
          simp [runMain, he', hc]
        rw [hr]
        refine ⟨Or.inr rfl, ?_, ?_⟩
        · intro h
          exact absurd h (by simp)
        · rintro ⟨df', issues, hdf, -, hok⟩
          cases hdf
          rw [hc] at hok
          exact Except.noConfusion hok
      | ok p =>
        rcases p with ⟨flag, issues⟩
        cases flag with
        | false =>
          have hr : runMain now (.ok df) = ⟨0, .success, true⟩ := by
            simp [runMain, he', hc]
          rw [hr]
          exact ⟨Or.inl rfl, fun _ => ⟨df, issues, rfl, he', hc⟩, fun _ => rfl⟩
        | true =>
          have hr : runMain now (.ok df) = ⟨1, .alertFailed, true⟩ := by
            simp [runMain, he', hc]
          rw [hr]
          refine ⟨Or.inr rfl, ?_, ?_⟩
          · intro h
            exact absurd h (by simp)
          · rintro ⟨df', issues', hdf, -, hok⟩
            cases hdf
            rw [hc] at hok
            simp at hok

/-! ## Claim C2: all-pass verdict -/

/-- C2: a non-empty frame whose first `DATE` value formats to yesterday
(current date minus one day), that has exactly 16 columns, and whose
ratio column has minimum and maximum both exactly 1, gets the passing
verdict: flag `false` and an empty issue list. -/
theorem all_checks_pass_verdict (now : PDate) (df : DataFrame)
    (dc rc : Column) (d : PDate) (nums : List ℚ)
    (hdc : df.col dateColName = some dc)
    (hd : dc.cells.head? = some (Cell.date d))
    (hdate : fmtDate d = yesterdayStr now)
    (hcols : df.ncols = 16)
    (hrc : df.col ratioColName = some rc)
    (hnums : extractNums rc.cells = .ok nums)
    (hmax : listMax? nums = some 1)
    (hmin : listMin? nums = some 1) :
    df_check now df = .ok (false, []) := by
  have h1 : dateCheckPart now df = .ok (false, []) := by
    simp only [dateCheckPart, hdc, head?_uniqueCells, hd, hdate]
    simp
  have h2 : colCountPart df = (false, []) := by
    simp [colCountPart, hcols]
  have h3 : ratioPart df = .ok (false, []) := by
    simp only [ratioPart, hrc, hnums, hmax, hmin]
    have hb : ¬((1 : ℚ) > ratioUpper ∨ (1 : ℚ) < ratioLower) := by decide
    rw [if_neg hb]
  rw [df_check_decomp now df false false [] [] h1 h3, h2]
  rfl

/-- Witness for C2: the reference frame `dfGoodW` on the reference
date satisfies every hypothesis and receives the passing verdict. -/
theorem all_checks_pass_verdict_witness :
    dfGoodW.col dateColName = some goodDateColW
    ∧ goodDateColW.cells.head? = some (Cell.date ⟨2026, 10, 11⟩)
    ∧ fmtDate ⟨2026, 10, 11⟩ = yesterdayStr refNow
    ∧ dfGoodW.ncols = 16
    ∧ dfGoodW.col ratioColName = some goodRatioColW
    ∧ extractNums goodRatioColW.cells = .ok [1]
    ∧ listMax? [1] = some 1
    ∧ listMin? [1] = some 1
    ∧ df_check refNow dfGoodW = .ok (false, []) :=
  ⟨by decide, by decide, by decide, by decide, by decide, by decide, by decide, by decide,
   all_checks_pass_verdict refNow dfGoodW goodDateColW goodRatioColW ⟨2026, 10, 11⟩ [1]
     (by decide) (by decide) (by decide) (by decide) (by decide) (by decide)
     (by decide) (by decide)⟩

/-! ## Claim C3: no short-circuiting, all issues collected -/

/-- C3: whenever the validator returns a verdict, that verdict combines
the results of all three checks — the date check's flag and issues, the
column-count check's, and the ratio check's, concatenated in order —
and each check contributes exactly one issue when it fails and none
when it passes, so simultaneous failures all appear together. -/
theorem no_short_circuit (now : PDate) (df : DataFrame) (f1 f3 : Bool)
    (i1 i3 : List Issue)
    (h1 : dateCheckPart now df = .ok (f1, i1))
    (h3 : ratioPart df = .ok (f3, i3)) :
    df_check now df
      = .ok (f1 || (colCountPart df).1 || f3, i1 ++ (colCountPart df).2 ++ i3)
    ∧ i1.length = (if f1 then 1 else 0)
    ∧ (colCountPart df).2.length = (if (colCountPart df).1 then 1 else 0)
    ∧ i3.length = (if f3 then 1 else 0) :=
  ⟨df_check_decomp now df f1 f3 i1 i3 h1 h3,
   (dateCheckPart_issues now df f1 i1 h1).1,
   colCountPart_issues df,
   (ratioPart_issues df f3 i3 h3).1⟩

/-- Witness for C3 at a frame failing the date check and the
column-count check at once: both issues appear in the verdict. -/
theorem no_short_circuit_witness :
    dateCheckPart refNow dfTwoFailW
      = .ok (true, [Issue.dateCheck (yesterdayStr refNow) (fmtDate ⟨2026, 10, 9⟩)])
    ∧ ratioPart dfTwoFailW = .ok (false, [])
    ∧ (df_check refNow dfTwoFailW
        = .ok (true || (colCountPart dfTwoFailW).1 || false,
            [Issue.dateCheck (yesterdayStr refNow) (fmtDate ⟨2026, 10, 9⟩)]
              ++ (colCountPart dfTwoFailW).2 ++ [])
       ∧ [Issue.dateCheck (yesterdayStr refNow) (fmtDate ⟨2026, 10, 9⟩)].length
           = (if true then 1 else 0)
       ∧ (colCountPart dfTwoFailW).2.length
           = (if (colCountPart dfTwoFailW).1 then 1 else 0)
       ∧ ([] : List Issue).length = (if false then 1 else 0)) :=
  ⟨by decide, by decide,
   no_short_circuit refNow dfTwoFailW true false
     [Issue.dateCheck (yesterdayStr refNow) (fmtDate ⟨2026, 10, 9⟩)] []
     (by decide) (by decide)⟩

/-! ## Claim C5: ratio tolerance band -/

/-- C5: for a frame whose ratio column yields a maximum `mx` and
minimum `mn`, the ratio check fails (with an issue reporting min and
max) exactly when `mx > 1.00001` or `mn < 0.99999`, passes exactly
otherwise, and in particular any values within or exactly on the bounds
pass. -/
theorem ratio_bound_iff (df : DataFrame) (rc : Column) (nums : List ℚ)
    (mx mn : ℚ)
    (hrc : df.col ratioColName = some rc)
    (hnums : extractNums rc.cells = .ok nums)
    (hmax : listMax? nums = some mx)
    (hmin : listMin? nums = some mn) :
    (ratioPart df = .ok (true, [Issue.ratioRange mn mx])
      ↔ (mx > ratioUpper ∨ mn < ratioLower))
    ∧ (ratioPart df = .ok (false, [])
      ↔ ¬(mx > ratioUpper ∨ mn < ratioLower))
    ∧ (mx ≤ ratioUpper → ratioLower ≤ mn → ratioPart df = .ok (false, [])) := by
  have hr : ratioPart df
      = if mx > ratioUpper ∨ mn < ratioLower
        then .ok (true, [Issue.ratioRange mn mx]) else .ok (false, []) := by
    simp only [ratioPart, hrc, hnums, hmax, hmin]
  by_cases hb : mx > ratioUpper ∨ mn < ratioLower
  · rw [hr, if_pos hb]
    refine ⟨⟨fun _ => hb, fun _ => rfl⟩, ⟨fun hcontra => ?_, fun hn => absurd hb hn⟩, ?_⟩
    · exact absurd hcontra (by simp)
    · intro hle hge
      rcases hb with hb | hb
      · exact absurd hb (not_lt.mpr hle)
      · exact absurd hb (not_lt.mpr hge)
  · rw [hr, if_neg hb]
    refine ⟨⟨fun hcontra => ?_, fun hby => absurd hby hb⟩,
            ⟨fun _ => hb, fun _ => rfl⟩, fun _ _ => rfl⟩
    exact absurd hcontra (by simp)

/-- Witness for C5 at a frame with ratio `1.00002`: outside the band,
so the check fails reporting min and max. -/
theorem ratio_bound_iff_witness :
    (mkRat 100002 100000 : ℚ) > ratioUpper
    ∧ ratioPart dfBadRatioW
        = .ok (true, [Issue.ratioRange (mkRat 100002 100000) (mkRat 100002 100000)]) :=
  ⟨by decide,
   ((ratio_bound_iff dfBadRatioW badRatioColW [mkRat 100002 100000]
       (mkRat 100002 100000) (mkRat 100002 100000)
       (by decide) (by decide) (by decide) (by decide)).1).mpr (Or.inl (by decide))⟩

/-! ## Claim C6: column-count check -/

/-- C6: the column-count check fails exactly when the frame does not
have 16 columns, whatever the columns' names or contents, and in any
verdict the validator returns, the column-count issue appears exactly
when the count differs from 16. -/
theorem column_count_iff (now : PDate) (df : DataFrame) :
    ((colCountPart df).1 = true ↔ df.ncols ≠ 16)
    ∧ ((colCountPart df).2
        = if df.ncols ≠ 16 then [Issue.columnCount 16 df.ncols] else [])
    ∧ (∀ flag issues, df_check now df = .ok (flag, issues) →
        (Issue.columnCount 16 df.ncols ∈ issues ↔ df.ncols ≠ 16)) := by
  refine ⟨?_, ?_, ?_⟩
  · unfold colCountPart
    split <;> simp_all
  · unfold colCountPart
    split <;> simp_all
  · intro flag issues h
    obtain ⟨f1, i1, f3, i3, h1, h3, hfl, his⟩ := df_check_ok_inv now df flag issues h
    subst his
    have hd1 := (dateCheckPart_issues now df f1 i1 h1).2 16 df.ncols
    have hd3 := (ratioPart_issues df f3 i3 h3).2 16 df.ncols
    constructor
    · intro hmem
      rcases List.mem_append.mp hmem with hmem12 | hmem3
      · rcases List.mem_append.mp hmem12 with hmem1 | hmem2
        · exact absurd hmem1 hd1
        · unfold colCountPart at hmem2
          split at hmem2
          · assumption
          · simp at hmem2
      · exact absurd hmem3 hd3
    · intro hc
      apply List.mem_append.mpr
      left
      apply List.mem_append.mpr
      right
      unfold colCountPart
      rw [if_pos hc]
      simp

/-- Witness for C6 at a 15-column frame: the verdict carries the
column-count issue. -/
theorem column_count_iff_witness :
    dfFifteenW.ncols = 15
    ∧ df_check refNow dfFifteenW = .ok (true, [Issue.columnCount 16 15])
    ∧ (Issue.columnCount 16 dfFifteenW.ncols ∈ [Issue.columnCount 16 15]
        ↔ dfFifteenW.ncols ≠ 16) :=
  ⟨by decide, by decide,
   (column_count_iff refNow dfFifteenW).2.2 true [Issue.columnCount 16 15] (by decide)⟩

/-! ## Claim C7: recency check uses only the first DATE value -/

/-- C7: the recency check compares the first observed distinct `DATE`
value, formatted, against yesterday, failing exactly when the two
strings differ; and any frame whose `DATE` column has the same first
value gets the identical check result, so later rows never influence
it. -/
theorem recency_first_value (now : PDate) (df df2 : DataFrame)
    (dc dc2 : Column) (d : PDate)
    (hdc : df.col dateColName = some dc)
    (hd : dc.cells.head? = some (Cell.date d))
    (hdc2 : df2.col dateColName = some dc2)
    (hd2 : dc2.cells.head? = dc.cells.head?) :
    (dateCheckPart now df
        = .ok (true, [Issue.dateCheck (yesterdayStr now) (fmtDate d)])
      ↔ fmtDate d ≠ yesterdayStr now)
    ∧ (dateCheckPart now df = .ok (false, []) ↔ fmtDate d = yesterdayStr now)
    ∧ dateCheckPart now df2 = dateCheckPart now df := by
  have hform : ∀ (dfx : DataFrame) (dcx : Column),
      dfx.col dateColName = some dcx →
      dcx.cells.head? = some (Cell.date d) →
      dateCheckPart now dfx
        = if fmtDate d ≠ yesterdayStr now
          then .ok (true, [Issue.dateCheck (yesterdayStr now) (fmtDate d)])
          else .ok (false, []) := by
    intro dfx dcx hx1 hx2
    simp only [dateCheckPart, hx1, head?_uniqueCells, hx2]
  have hf1 := hform df dc hdc hd
  have hf2 := hform df2 dc2 hdc2 (hd2.trans hd)
  refine ⟨?_, ?_, by rw [hf1, hf2]⟩
  · rw [hf1]
    by_cases hb : fmtDate d ≠ yesterdayStr now
    · rw [if_pos hb]
      exact ⟨fun _ => hb, fun _ => rfl⟩
    · rw [if_neg hb]
      refine ⟨fun hcontra => absurd hcontra (by simp), fun hne => absurd hne hb⟩
  · rw [hf1]
    by_cases hb : fmtDate d ≠ yesterdayStr now
    · rw [if_pos hb]
      refine ⟨fun hcontra => absurd hcontra (by simp), fun heq => absurd heq hb⟩
    · rw [if_neg hb]
      exact ⟨fun _ => not_not.mp hb, fun _ => rfl⟩

/-- Witness for C7: `dfGoodW` and `dfSecondDateW` share only the first
`DATE` value; both receive the same passing date check. -/
theorem recency_first_value_witness :
    dfGoodW.col dateColName = some goodDateColW
    ∧ dfSecondDateW.col dateColName = some secondDateColW
    ∧ secondDateColW.cells.head? = goodDateColW.cells.head?
    ∧ (dateCheckPart refNow dfGoodW = .ok (false, [])
        ↔ fmtDate ⟨2026, 10, 11⟩ = yesterdayStr refNow)
    ∧ dateCheckPart refNow dfSecondDateW = dateCheckPart refNow dfGoodW :=
  ⟨by decide, by decide, by decide,
   (recency_first_value refNow dfGoodW dfSecondDateW goodDateColW secondDateColW
      ⟨2026, 10, 11⟩ (by decide) (by decide) (by decide) (by decide)).2.1,
   (recency_first_value refNow dfGoodW dfSecondDateW goodDateColW secondDateColW
      ⟨2026, 10, 11⟩ (by decide) (by decide) (by decide) (by decide)).2.2⟩

/-! ## Claim C10: malformed frames raise, top level catches -/

/-- C10: on a non-empty frame lacking a `DATE` column, lacking a
`ROW_EVENT_RATIO` column, or whose first `DATE` value is not date-like,
the validator raises an exception instead of returning a verdict, and
the run ends with the "Unexpected error" report and exit code 1. -/
theorem malformed_frame_unexpected (now : PDate) (df : DataFrame)
    (hne : df.isEmptyDF = false)
    (hbad : df.col dateColName = none
        ∨ (∃ dc c, df.col dateColName = some dc ∧ dc.cells.head? = some c
             ∧ ∀ d, c ≠ Cell.date d)
        ∨ df.col ratioColName = none) :
    (∃ e, df_check now df = .error e)
    ∧ runMain now (.ok df) = ⟨1, RunReport.unexpected, true⟩ := by
  have herr : ∃ e, df_check now df = .error e := by
    rcases hbad with hnone | ⟨dc, c, hdc, hc, hnd⟩ | hrnone
    · exact ⟨.keyError dateColName, by simp [df_check, dateCheckPart, hnone]⟩
    · rcases c with d | q | t
      · exact absurd rfl (hnd d)
      · have hstep : dateCheckPart now df = .error .attributeError := by
          simp only [dateCheckPart, hdc, head?_uniqueCells, hc]
        exact ⟨.attributeError, by simp [df_check, hstep]⟩
      · have hstep : dateCheckPart now df = .error .attributeError := by
          simp only [dateCheckPart, hdc, head?_uniqueCells, hc]
        exact ⟨.attributeError, by simp [df_check, hstep]⟩
    · cases h1 : dateCheckPart now df with
      | error e => exact ⟨e, by simp [df_check, h1]⟩
      | ok p =>
        rcases p with ⟨f1, i1⟩
        have h3 : ratioPart df = .error (.keyError ratioColName) := by
          simp [ratioPart, hrnone]
        exact ⟨.keyError ratioColName, by simp [df_check, h1, h3]⟩
  obtain ⟨e, he⟩ := herr
  exact ⟨⟨e, he⟩, by simp [runMain, hne, he]⟩

/-- Witness for C10 at a non-empty 16-column frame with no `DATE`
column. -/
theorem malformed_frame_unexpected_witness :
    dfNoDateW.isEmptyDF = false
    ∧ dfNoDateW.col dateColName = none
    ∧ ((∃ e, df_check refNow dfNoDateW = .error e)
       ∧ runMain refNow (.ok dfNoDateW) = ⟨1, RunReport.unexpected, true⟩) :=
  ⟨by decide, by decide,
   malformed_frame_unexpected refNow dfNoDateW (by decide) (Or.inl (by decide))⟩
